import Mathlib

/-!
Shallow embedding of HuggyFit's concurrent result cache and asynchronous
calculation orchestrator (packages `internal/calculator`, `internal/cache`,
`internal/tui`), together with proofs of the specification's properties.

Go `float64` arithmetic is modelled exactly over `ℚ`; Go `int` is modelled
as `ℤ` (Go integer division truncates toward zero, `Int.tdiv`); a Go map
lookup with the `, ok` form is an `Option`; a Go runtime fault (integer
division by zero) is a distinct `panic` outcome rather than a value.
-/

namespace HuggyFit

/-! ## internal/calculator/memory.go -/

/-- `DataType` is a Go string type. -/
abbrev DataType := String

def Int4 : DataType := "int4"
def Int8 : DataType := "int8"
def Float16 : DataType := "float16"
def Q4 : DataType := "q4"
def Q8 : DataType := "q8"
def F16 : DataType := "f16"

/-- `BytesPerType` map: data type → bytes per parameter; `none` models a
missing map entry. -/
def BytesPerType (d : DataType) : Option ℚ :=
  if d = Int4 then some (1/2)
  else if d = Int8 then some 1
  else if d = Float16 then some 2
  else if d = Q4 then some (1/2)
  else if d = Q8 then some 1
  else if d = F16 then some 2
  else none

/-- `NormalizeDataType` converts common alias names to standard types. -/
def NormalizeDataType (dtype : DataType) : DataType :=
  if dtype = Q4 then Int4
  else if dtype = Q8 then Int8
  else if dtype = F16 then Float16
  else dtype

/-- `ValidateDataType` checks if the provided data type is supported. -/
def ValidateDataType (dtype : DataType) : Bool :=
  (BytesPerType dtype).isSome

/-- Go's `int(x)` conversion on a float truncates toward zero. -/
def goTrunc (q : ℚ) : ℤ :=
  if 0 ≤ q then ⌊q⌋ else ⌈q⌉

/-- `round` from memory.go: `float64(int(num*multiplier+0.5)) / multiplier`
where `multiplier` is `10^decimals`. -/
def round (num : ℚ) (decimals : ℕ) : ℚ :=
  let multiplier : ℚ := 10 ^ decimals
  (goTrunc (num * multiplier + 1/2) : ℚ) / multiplier

/-! ## internal/calculator/kv_cache.go -/

/-- Relevant fields of a model's `config.json`. -/
structure ModelConfig where
  HiddenSize : ℤ
  NumAttentionHeads : ℤ
  NumHiddenLayers : ℤ
  NumKeyValueHeads : ℤ
deriving DecidableEq, Repr

/-- Parameters for the KV cache calculation. `Config` is a Go pointer:
`none` is `nil`. -/
structure KVCacheParams where
  Users : ℤ
  ContextLength : ℤ
  DataType : DataType
  Config : Option ModelConfig
deriving DecidableEq, Repr

/-- Errors returned (as Go `error` values) by the calculator. -/
inductive CalcError where
  | configRequired : CalcError
  | unsupportedDataType : DataType → CalcError
deriving DecidableEq, Repr

/-- Outcome of `CalculateKVCache`: a returned value, a returned error, or a
Go runtime fault (integer division by zero). -/
inductive CalcResult where
  | ok : ℚ → CalcResult
  | err : CalcError → CalcResult
  | panic : CalcResult
deriving DecidableEq, Repr

/-- `CalculateKVCache` computes memory required for the KV cache.
`kvSize = float64(2 * NumHiddenLayers * ContextLength *
(HiddenSize / NumAttentionHeads * NumKeyValueHeads) * 2)` with Go integer
division; dividing by zero attention heads is a runtime fault. -/
def CalculateKVCache (params : KVCacheParams) : CalcResult :=
  match params.Config with
  | none => .err .configRequired
  | some config =>
    match BytesPerType params.DataType with
    | none => .err (.unsupportedDataType params.DataType)
    | some bytes =>
      if config.NumAttentionHeads = 0 then .panic
      else
        let kvSizeInt : ℤ := 2 * config.NumHiddenLayers * params.ContextLength *
          (Int.tdiv config.HiddenSize config.NumAttentionHeads * config.NumKeyValueHeads) * 2
        let kvSize : ℚ := (kvSizeInt : ℚ)
        let memoryGB : ℚ := (kvSize * bytes) / (1024 * 1024 * 1024)
        let totalMemoryGB : ℚ := memoryGB * (params.Users : ℚ)
        .ok (round totalMemoryGB 2)

/-- `EstimateKVCache` provides an estimation for gated models. The byte
width is read with `bytes, _ := BytesPerType[dtype]`, so an unknown type
silently contributes the zero value. -/
def EstimateKVCache (parameterCount : ℚ) (users contextLength : ℤ)
    (dtype : DataType) : ℚ :=
  let memoryPerUser : ℚ :=
    if parameterCount < 7 then 1/2
    else if parameterCount < 20 then 1
    else 2
  let memoryPerUser2 : ℚ := memoryPerUser * ((contextLength : ℚ) / 1000)
  let bytes : ℚ := (BytesPerType dtype).getD 0
  let dtypeScale : ℚ := bytes / (BytesPerType Float16).getD 0
  let memoryPerUser3 : ℚ := memoryPerUser2 * dtypeScale
  round (memoryPerUser3 * (users : ℚ)) 2

/-! ## internal/cache/cache.go -/

/-- Identity of one memory figure. -/
structure CacheKey where
  ModelID : String
  Users : ℤ
  ContextLen : ℤ
  DataType : DataType
deriving DecidableEq, Repr

/-- The two maps of `Cache` (the mutex and expiration are concurrency
plumbing with no effect on values). -/
structure Cache where
  configs : String → Option ModelConfig
  calculations : CacheKey → Option ℚ

def emptyCache : Cache :=
  { configs := fun _ => none, calculations := fun _ => none }

def Cache.GetConfig (c : Cache) (modelID : String) : Option ModelConfig :=
  c.configs modelID

def Cache.SetConfig (c : Cache) (modelID : String) (config : ModelConfig) : Cache :=
  { c with configs := fun m => if m = modelID then some config else c.configs m }

def Cache.GetKVCache (c : Cache) (key : CacheKey) : Option ℚ :=
  c.calculations key

def Cache.SetKVCache (c : Cache) (key : CacheKey) (value : ℚ) : Cache :=
  { c with calculations := fun k => if k = key then some value else c.calculations k }

/-- Outcome of `GetOrCalculateKVCache`: the returned value together with the
final cache state and the number of network fetches performed, or a Go
runtime fault propagating out of `CalculateKVCache`. -/
inductive ResolveResult where
  | ok : ℚ → Cache → ℕ → ResolveResult
  | panic : ResolveResult

/-- Returned value of a resolve outcome, if any. -/
def ResolveResult.value? : ResolveResult → Option ℚ
  | .ok v _ _ => some v
  | .panic => none

/-- The estimation fallback tail of `GetOrCalculateKVCache`: compute the
estimate, store it under `key`, return it. -/
def estimateAndStore (c : Cache) (key : CacheKey) (parameters : ℚ)
    (fetches : ℕ) : ResolveResult :=
  let result := EstimateKVCache parameters key.Users key.ContextLen key.DataType
  .ok result (c.SetKVCache key result) fetches

/-- `GetOrCalculateKVCache` tries the result cache, then the precise path
(cached or freshly fetched architecture config), then the estimation
fallback. `fetch` models `calculator.FetchModelConfig` (`none` = error). -/
def GetOrCalculateKVCache (fetch : String → Option ModelConfig) (c : Cache)
    (key : CacheKey) (parameters : ℚ) (useEstimation : Bool) : ResolveResult :=
  match c.GetKVCache key with
  | some cachedValue => .ok cachedValue c 0
  | none =>
    if useEstimation then
      estimateAndStore c key parameters 0
    else
      match c.GetConfig key.ModelID with
      | none =>
        match fetch key.ModelID with
        | none => estimateAndStore c key parameters 1
        | some config =>
          let c1 := c.SetConfig key.ModelID config
          match CalculateKVCache
              { Users := key.Users, ContextLength := key.ContextLen,
                DataType := key.DataType, Config := some config } with
          | .ok result => .ok result (c1.SetKVCache key result) 1
          | .err _ => estimateAndStore c1 key parameters 1
          | .panic => .panic
      | some config =>
        match CalculateKVCache
            { Users := key.Users, ContextLength := key.ContextLen,
              DataType := key.DataType, Config := some config } with
        | .ok result => .ok result (c.SetKVCache key result) 0
        | .err _ => estimateAndStore c key parameters 0
        | .panic => .panic

/-! ## Specification-side formulas (spec.md §4.4, §8), for refinement
comparison with the source functions above. -/

/-- Spec §4.4 step 2: `kv_bytes = 2 * numHiddenLayers * contextLength *
(hiddenSize / numAttentionHeads * numKeyValueHeads) * 2`, with integer
division truncating toward zero. -/
def specKVBytes (config : ModelConfig) (contextLength : ℤ) : ℤ :=
  2 * config.NumHiddenLayers * contextLength *
    (Int.tdiv config.HiddenSize config.NumAttentionHeads * config.NumKeyValueHeads) * 2

/-- Spec §4.4 step 2: `memoryGB = kv_bytes * bytesPerParam(dataType) / 2^30`,
scaled by `users`, rounded to 2 decimal places. -/
def specPreciseMemoryGB (config : ModelConfig) (contextLength users : ℤ)
    (dtype : DataType) : ℚ :=
  round ((specKVBytes config contextLength : ℚ) * (BytesPerType dtype).getD 0 / 2 ^ 30
    * (users : ℚ)) 2

/-- Spec §4.4 step 3: tiered estimation heuristic. Base GB per 1000 tokens
per user: `<7B → 0.5`, `<20B → 1.0`, else `2.0`; scaled by
`contextLength/1000`, by `bytesPerParam(dataType)/bytesPerParam(fp16)` and
by `users`; rounded to 2 decimal places. -/
def specEstimateGB (paramsB : ℚ) (users contextLength : ℤ) (dtype : DataType) : ℚ :=
  let base : ℚ := if paramsB < 7 then 1/2 else if paramsB < 20 then 1 else 2
  round (base * ((contextLength : ℚ) / 1000)
    * ((BytesPerType dtype).getD 0 / (BytesPerType Float16).getD 0) * (users : ℚ)) 2

/-- Byte-width registry entries, by computation. -/
theorem bytes_float16 : BytesPerType Float16 = some 2 := rfl

theorem bytes_int8 : BytesPerType Int8 = some 1 := rfl

theorem bytes_int4 : BytesPerType Int4 = some (1/2) := rfl

theorem bytes_q4 : BytesPerType Q4 = some (1/2) := rfl

theorem bytes_q8 : BytesPerType Q8 = some 1 := rfl

theorem bytes_f16 : BytesPerType F16 = some 2 := rfl

/-- The source estimation function agrees with the spec's tiered formula. -/
theorem estimate_eq_spec (paramsB : ℚ) (users contextLength : ℤ) (dtype : DataType) :
    EstimateKVCache paramsB users contextLength dtype =
      specEstimateGB paramsB users contextLength dtype := rfl

/-! ## Claims C1 – C3 -/

/-- C1: the claim states that an architecture config with
`numAttentionHeads = 0` routes to estimation and that `resolve` never
fails. The code contradicts it: `CalculateKVCache` performs the Go integer
division `HiddenSize / NumAttentionHeads` with no guard, so a fetched
config with zero attention heads is a runtime fault (division by zero) that
propagates out of `GetOrCalculateKVCache` instead of degrading to the
estimate. This theorem evaluates the code at the failing input. -/
theorem C1_zero_heads_faults :
    GetOrCalculateKVCache
      (fun _ => some { HiddenSize := 64, NumAttentionHeads := 0,
                       NumHiddenLayers := 2, NumKeyValueHeads := 0 })
      emptyCache
      { ModelID := "m", Users := 1, ContextLen := 4096, DataType := Float16 }
      3 false = .panic := rfl

/-- C2: on the precise path (non-nil config, supported data type, nonzero
attention heads) the returned value is exactly the spec formula
`kv_bytes = 2*numHiddenLayers*contextLength*(hiddenSize/numAttentionHeads*
numKeyValueHeads)*2` (integer division truncating toward zero), then
`kv_bytes * bytesPerParam(dataType) / 2^30`, scaled by `users`, rounded to
2 decimal places. -/
theorem C2_precise_formula (params : KVCacheParams) (config : ModelConfig)
    (hc : params.Config = some config)
    (hd : (BytesPerType params.DataType).isSome)
    (ha : config.NumAttentionHeads ≠ 0) :
    CalculateKVCache params =
      .ok (specPreciseMemoryGB config params.ContextLength params.Users params.DataType) := by
  obtain ⟨bytes, hb⟩ := Option.isSome_iff_exists.mp hd
  simp only [CalculateKVCache, hc, hb, ha, if_neg, specPreciseMemoryGB, specKVBytes,
    Option.getD_some]
  norm_num

/-- C2 witness: the spec §8 example (hiddenSize 4096, 32 heads, 32 layers,
32 KV heads, context 4096, 1 user, fp16) gives exactly 4.00 GB. -/
theorem C2_witness :
    CalculateKVCache
        { Users := 1, ContextLength := 4096, DataType := Float16,
          Config := some { HiddenSize := 4096, NumAttentionHeads := 32,
                           NumHiddenLayers := 32, NumKeyValueHeads := 32 } } =
      .ok (specPreciseMemoryGB
            { HiddenSize := 4096, NumAttentionHeads := 32,
              NumHiddenLayers := 32, NumKeyValueHeads := 32 } 4096 1 Float16) ∧
    specPreciseMemoryGB
        { HiddenSize := 4096, NumAttentionHeads := 32,
          NumHiddenLayers := 32, NumKeyValueHeads := 32 } 4096 1 Float16 = 4 := by
  constructor
  · exact C2_precise_formula _ _ rfl rfl (by decide)
  · have ht : Int.tdiv 4096 32 = 128 := rfl
    norm_num [specPreciseMemoryGB, specKVBytes, ht, bytes_float16, round, goTrunc]

/-- C3: whenever the key is not cached and either the config fetch fails,
or the precise computation returns an error (with a cached or a freshly
fetched config), `resolve` returns exactly the spec's tiered estimation
value. -/
theorem C3_fallback_estimation (fetch : String → Option ModelConfig) (c : Cache)
    (key : CacheKey) (paramsB : ℚ)
    (hk : c.GetKVCache key = none)
    (h : (c.GetConfig key.ModelID = none ∧ fetch key.ModelID = none) ∨
         (∃ config e, c.GetConfig key.ModelID = none ∧ fetch key.ModelID = some config ∧
            CalculateKVCache { Users := key.Users, ContextLength := key.ContextLen,
                               DataType := key.DataType, Config := some config } = .err e) ∨
         (∃ config e, c.GetConfig key.ModelID = some config ∧
            CalculateKVCache { Users := key.Users, ContextLength := key.ContextLen,
                               DataType := key.DataType, Config := some config } = .err e)) :
    (GetOrCalculateKVCache fetch c key paramsB false).value? =
      some (specEstimateGB paramsB key.Users key.ContextLen key.DataType) := by
  rcases h with ⟨hc, hf⟩ | ⟨config, e, hc, hf, hcalc⟩ | ⟨config, e, hc, hcalc⟩
  · simp [GetOrCalculateKVCache, hk, hc, hf, estimateAndStore, ResolveResult.value?,
      estimate_eq_spec]
  · simp [GetOrCalculateKVCache, hk, hc, hf, hcalc, estimateAndStore, ResolveResult.value?,
      estimate_eq_spec]
  · simp [GetOrCalculateKVCache, hk, hc, hcalc, estimateAndStore, ResolveResult.value?,
      estimate_eq_spec]

/-- C3 witness: a 3B-parameter model, 1 user, context 4096, fp16, with an
always-failing fetch and an empty cache, resolves to 2.05 GB. -/
theorem C3_witness :
    (GetOrCalculateKVCache (fun _ => none) emptyCache
        { ModelID := "m", Users := 1, ContextLen := 4096, DataType := Float16 } 3 false).value? =
      some (specEstimateGB 3 1 4096 Float16) ∧
    specEstimateGB 3 1 4096 Float16 = 41/20 := by
  constructor
  · exact C3_fallback_estimation _ _ _ _ rfl (Or.inl ⟨rfl, rfl⟩)
  · norm_num [specEstimateGB, bytes_float16, round, goTrunc]

/-- Every successful `GetOrCalculateKVCache` leaves the returned value in
the result cache under the requested key. -/
theorem resolve_writes_key (fetch : String → Option ModelConfig) (c : Cache) (key : CacheKey)
    (paramsB : ℚ) (useEstimation : Bool) (v : ℚ) (c' : Cache) (n : ℕ)
    (h : GetOrCalculateKVCache fetch c key paramsB useEstimation = .ok v c' n) :
    c'.GetKVCache key = some v := by
  have hset : ∀ (c0 : Cache) (w : ℚ), (c0.SetKVCache key w).GetKVCache key = some w := by
    intro c0 w
    simp [Cache.GetKVCache, Cache.SetKVCache]
  unfold GetOrCalculateKVCache at h
  split at h
  · injection h with h1 h2 h3
    subst h1
    subst h2
    assumption
  · split at h
    · simp only [estimateAndStore] at h
      injection h with h1 h2 h3
      subst h1
      subst h2
      exact hset _ _
    · split at h
      · split at h
        · simp only [estimateAndStore] at h
          injection h with h1 h2 h3
          subst h1
          subst h2
          exact hset _ _
        · split at h
          · injection h with h1 h2 h3
            subst h1
            subst h2
            exact hset _ _
          · simp only [estimateAndStore] at h
            injection h with h1 h2 h3
            subst h1
            subst h2
            exact hset _ _
          · exact absurd h (by simp)
      · split at h
        · injection h with h1 h2 h3
          subst h1
          subst h2
          exact hset _ _
        · simp only [estimateAndStore] at h
          injection h with h1 h2 h3
          subst h1
          subst h2
          exact hset _ _
        · exact absurd h (by simp)

/-- C4: resolving the same key twice with identical arguments yields the
same value; the second call is a cache hit that leaves the cache unchanged
and performs zero network fetches (no recomputation). -/
theorem C4_idempotent (fetch : String → Option ModelConfig) (c : Cache) (key : CacheKey)
    (paramsB : ℚ) (useEstimation : Bool) (v : ℚ) (c' : Cache) (n : ℕ)
    (h : GetOrCalculateKVCache fetch c key paramsB useEstimation = .ok v c' n) :
    GetOrCalculateKVCache fetch c' key paramsB useEstimation = .ok v c' 0 := by
  have hk := resolve_writes_key fetch c key paramsB useEstimation v c' n h
  simp [GetOrCalculateKVCache, hk]

/-- C4 witness: a concrete first call (empty cache, failing fetch, 3B
model) followed by the second call, which hits the cache. -/
theorem C4_witness :
    GetOrCalculateKVCache (fun _ => none)
        (Cache.SetKVCache emptyCache
          { ModelID := "m", Users := 1, ContextLen := 4096, DataType := Float16 }
          (EstimateKVCache 3 1 4096 Float16))
        { ModelID := "m", Users := 1, ContextLen := 4096, DataType := Float16 } 3 false =
      .ok (EstimateKVCache 3 1 4096 Float16)
        (Cache.SetKVCache emptyCache
          { ModelID := "m", Users := 1, ContextLen := 4096, DataType := Float16 }
          (EstimateKVCache 3 1 4096 Float16)) 0 :=
  C4_idempotent (fun _ => none) emptyCache
    { ModelID := "m", Users := 1, ContextLen := 4096, DataType := Float16 } 3 false
    (EstimateKVCache 3 1 4096 Float16)
    (Cache.SetKVCache emptyCache
      { ModelID := "m", Users := 1, ContextLen := 4096, DataType := Float16 }
      (EstimateKVCache 3 1 4096 Float16)) 1 rfl

/-! ## internal/tui/config.go -/

/-- Predefined context lengths in tokens. -/
def contextLengths : List ℤ := [2048, 4096, 8192, 16384, 32768]

/-- Predefined user count options. -/
def userCounts : List ℤ := [1, 2, 4, 8, 16, 32]

/-- Supported data types for memory calculation. -/
def dataTypes : List DataType := [Float16, Int8, Int4]

/-- The ascending scan shared by `getNextContextLength`/`getNextUserCount`:
at the first element `≥ current` return the following list entry, wrapping
to `first` (the head of the whole list) past the end or when no element
matches. -/
def nextInList (first : ℤ) : List ℤ → ℤ → ℤ
  | [], _ => first
  | c :: rest, current =>
      if current ≤ c then rest.headD first else nextInList first rest current

/-- `getNextContextLength` returns the next available context length. -/
def getNextContextLength (current : ℤ) : ℤ :=
  nextInList (contextLengths.headD 0) contextLengths current

/-- `getNextUserCount` returns the next available user count. -/
def getNextUserCount (current : ℤ) : ℤ :=
  nextInList (userCounts.headD 0) userCounts current

/-- The descending scan of `getPrevUserCount` (the Go loop runs its index
downward, i.e. scans the reversed list): at the first element `≤ current`
return the next-smaller entry, wrapping to `last` (the last entry of the
whole list) at the front or when no element matches. -/
def prevInList (last : ℤ) : List ℤ → ℤ → ℤ
  | [], _ => last
  | c :: rest, current =>
      if c ≤ current then rest.headD last else prevInList last rest current

/-- `getPrevUserCount` returns the previous available user count. -/
def getPrevUserCount (current : ℤ) : ℤ :=
  prevInList (userCounts.getLastD 0) userCounts.reverse current

/-! ## internal/tui/model.go and update.go

Only the state that the batch orchestration logic reads or writes is
modelled: the selected model's info, the user count, the context length,
the shared cache and the pending flag (plus `loading`, which the handlers
set). The remaining `Model` fields (cursor, model list, spinner, text
input, tabs, window size, error display, search/quit/help flags) are
rendering state with no effect on these claims. -/

/-- The fields of `models.ModelInfo` the orchestrator reads. -/
structure ModelInfoT where
  ModelID : String
  ParametersB : ℚ
deriving DecidableEq, Repr

/-- Orchestration-relevant state of `tui.Model`. -/
structure TuiModel where
  modelInfo : Option ModelInfoT
  users : ℤ
  contextLen : ℤ
  cache : Cache
  cacheOperationPending : Bool
  loading : Bool

/-- `isModelSelected` returns whether a model is currently selected. -/
def isModelSelected (m : TuiModel) : Bool := m.modelInfo.isSome

/-- `InitialModel`: users = userCounts[0], contextLen = contextLengths[1],
a fresh cache and no pending batch. -/
def InitialModel : TuiModel :=
  { modelInfo := none, users := userCounts.headD 0,
    contextLen := contextLengths.getD 1 0, cache := emptyCache,
    cacheOperationPending := false, loading := true }

/-- The CacheKey built for one data type of the current configuration (the
struct literal repeated in `handleModelInfo`, `handleCacheUpdate` and
`triggerCacheUpdate`). -/
def batchKey (modelID : String) (users contextLen : ℤ) (d : DataType) : CacheKey :=
  { ModelID := modelID, Users := users, ContextLen := contextLen, DataType := d }

/-- `triggerCacheUpdate`: one `performCacheOperation` command per supported
data type for the current configuration; none when no model is selected. -/
def triggerCacheUpdate (m : TuiModel) : List CacheKey :=
  match m.modelInfo with
  | none => []
  | some info => dataTypes.map (batchKey info.ModelID m.users m.contextLen)

/-- The `"+"` case of `handleNavigationKeys`: bump the user count and
dispatch a batch. Returns the new model and the dispatched keys. -/
def handlePlusKey (m : TuiModel) : TuiModel × List CacheKey :=
  if isModelSelected m then
    let m1 := { m with users := getNextUserCount m.users }
    (m1, triggerCacheUpdate m1)
  else (m, [])

/-- The `"-"` case of `handleNavigationKeys`. -/
def handleMinusKey (m : TuiModel) : TuiModel × List CacheKey :=
  if isModelSelected m then
    let m1 := { m with users := getPrevUserCount m.users }
    (m1, triggerCacheUpdate m1)
  else (m, [])

/-- The `"c"` case of `handleNavigationKeys`. -/
def handleContextKey (m : TuiModel) : TuiModel × List CacheKey :=
  if isModelSelected m then
    let m1 := { m with contextLen := getNextContextLength m.contextLen }
    (m1, triggerCacheUpdate m1)
  else (m, [])

/-- `handleModelInfo`: records the fetched model info, marks the batch
pending, and dispatches one calculation key per supported data type. -/
def handleModelInfo (m : TuiModel) (info : ModelInfoT) : TuiModel × List CacheKey :=
  let m1 := { m with loading := false, modelInfo := some info,
                     cacheOperationPending := true }
  (m1, dataTypes.map (batchKey info.ModelID m1.users m1.contextLen))

/-- `handleCacheUpdate`: write the completed value into the result cache,
then — while the pending flag is set — recount the current configuration's
keys still missing from the cache. In the pending branch the Go code
dereferences `m.modelInfo` unconditionally; `modelInfo` is non-nil in every
state where the flag is set (only `handleModelInfo` sets it), so the `none`
branch below is the unreachable nil dereference, modelled as a no-op. -/
def handleCacheUpdate (m : TuiModel) (key : CacheKey) (memory : ℚ) : TuiModel :=
  let m1 := { m with cache := m.cache.SetKVCache key memory }
  if m1.cacheOperationPending then
    match m1.modelInfo with
    | some info =>
        let remainingOps := (dataTypes.filter (fun d =>
          (m1.cache.GetKVCache (batchKey info.ModelID m1.users m1.contextLen d)).isNone)).length
        { m1 with cacheOperationPending := decide (0 < remainingOps) }
    | none => m1
  else m1

/-- `handleModelList`: a fresh model list clears the selection and the
pending flag. -/
def handleModelList (m : TuiModel) : TuiModel :=
  { m with loading := false, modelInfo := none, cacheOperationPending := false }

/-- `handleError` clears loading and the pending flag. -/
def handleError (m : TuiModel) : TuiModel :=
  { m with loading := false, cacheOperationPending := false }

/-- The `"enter"` branch of `handleSearchModeKeys`: dispatches a search and
clears the pending flag. -/
def handleSearchSubmit (m : TuiModel) : TuiModel :=
  { m with loading := true, cacheOperationPending := false }

/-- The messages/keys of `Update` that touch orchestration state. -/
inductive Ev where
  | plusKey : Ev
  | minusKey : Ev
  | contextKey : Ev
  | modelInfoMsg : ModelInfoT → Ev
  | cacheUpdateMsg : CacheKey → ℚ → Ev
  | modelListMsg : Ev
  | errMsg : Ev
  | searchSubmit : Ev

/-- One step of the update loop, with the dispatched calculation keys. -/
def update (m : TuiModel) : Ev → TuiModel × List CacheKey
  | .plusKey => handlePlusKey m
  | .minusKey => handleMinusKey m
  | .contextKey => handleContextKey m
  | .modelInfoMsg info => handleModelInfo m info
  | .cacheUpdateMsg key memory => (handleCacheUpdate m key memory, [])
  | .modelListMsg => (handleModelList m, [])
  | .errMsg => (handleError m, [])
  | .searchSubmit => (handleSearchSubmit m, [])

/-- States reachable from `InitialModel` under the update loop. -/
inductive Reachable : TuiModel → Prop where
  | init : Reachable InitialModel
  | step {m : TuiModel} (ev : Ev) : Reachable m → Reachable (update m ev).fst

/-- Apply a list of completion messages in order. -/
def applyCompletions (m : TuiModel) (msgs : List (CacheKey × ℚ)) : TuiModel :=
  msgs.foldl (fun acc msg => handleCacheUpdate acc msg.1 msg.2) m

/-! ## Structural lemmas about the completion handler -/

theorem getKV_set (c : Cache) (k q : CacheKey) (v : ℚ) :
    (c.SetKVCache k v).GetKVCache q = if q = k then some v else c.GetKVCache q := rfl

theorem handleCacheUpdate_cache (m : TuiModel) (k : CacheKey) (v : ℚ) :
    (handleCacheUpdate m k v).cache = m.cache.SetKVCache k v := by
  unfold handleCacheUpdate
  dsimp only
  split
  · split <;> rfl
  · rfl

theorem handleCacheUpdate_modelInfo (m : TuiModel) (k : CacheKey) (v : ℚ) :
    (handleCacheUpdate m k v).modelInfo = m.modelInfo := by
  unfold handleCacheUpdate
  dsimp only
  split
  · split <;> rfl
  · rfl

theorem handleCacheUpdate_users (m : TuiModel) (k : CacheKey) (v : ℚ) :
    (handleCacheUpdate m k v).users = m.users := by
  unfold handleCacheUpdate
  dsimp only
  split
  · split <;> rfl
  · rfl

theorem handleCacheUpdate_contextLen (m : TuiModel) (k : CacheKey) (v : ℚ) :
    (handleCacheUpdate m k v).contextLen = m.contextLen := by
  unfold handleCacheUpdate
  dsimp only
  split
  · split <;> rfl
  · rfl

theorem handleCacheUpdate_pending_false (m : TuiModel) (k : CacheKey) (v : ℚ)
    (h : m.cacheOperationPending = false) :
    (handleCacheUpdate m k v).cacheOperationPending = false := by
  unfold handleCacheUpdate
  simp [h]

theorem handleCacheUpdate_pending_recount (m : TuiModel) (k : CacheKey) (v : ℚ)
    (info : ModelInfoT) (hm : m.modelInfo = some info)
    (hp : m.cacheOperationPending = true) :
    (handleCacheUpdate m k v).cacheOperationPending =
      decide (0 < (dataTypes.filter (fun d =>
        ((m.cache.SetKVCache k v).GetKVCache
          (batchKey info.ModelID m.users m.contextLen d)).isNone)).length) := by
  unfold handleCacheUpdate
  simp [hp, hm]

theorem applyCompletions_nil (m : TuiModel) : applyCompletions m [] = m := rfl

theorem applyCompletions_cons (m : TuiModel) (k : CacheKey) (v : ℚ)
    (msgs : List (CacheKey × ℚ)) :
    applyCompletions m ((k, v) :: msgs) = applyCompletions (handleCacheUpdate m k v) msgs := rfl

theorem applyCompletions_append (m : TuiModel) (xs ys : List (CacheKey × ℚ)) :
    applyCompletions m (xs ++ ys) = applyCompletions (applyCompletions m xs) ys := by
  simp [applyCompletions, List.foldl_append]

theorem applyCompletions_modelInfo (m : TuiModel) (msgs : List (CacheKey × ℚ)) :
    (applyCompletions m msgs).modelInfo = m.modelInfo := by
  induction msgs generalizing m with
  | nil => rfl
  | cons msg rest ih =>
      rw [show msg = (msg.1, msg.2) from rfl, applyCompletions_cons, ih,
        handleCacheUpdate_modelInfo]

theorem applyCompletions_users (m : TuiModel) (msgs : List (CacheKey × ℚ)) :
    (applyCompletions m msgs).users = m.users := by
  induction msgs generalizing m with
  | nil => rfl
  | cons msg rest ih =>
      rw [show msg = (msg.1, msg.2) from rfl, applyCompletions_cons, ih,
        handleCacheUpdate_users]

theorem applyCompletions_contextLen (m : TuiModel) (msgs : List (CacheKey × ℚ)) :
    (applyCompletions m msgs).contextLen = m.contextLen := by
  induction msgs generalizing m with
  | nil => rfl
  | cons msg rest ih =>
      rw [show msg = (msg.1, msg.2) from rfl, applyCompletions_cons, ih,
        handleCacheUpdate_contextLen]

/-- Cached entries persist, and every delivered key lands in the cache. -/
theorem applyCompletions_cache_isSome (m : TuiModel) (msgs : List (CacheKey × ℚ))
    (q : CacheKey) (h : q ∈ msgs.map Prod.fst ∨ (m.cache.GetKVCache q).isSome) :
    ((applyCompletions m msgs).cache.GetKVCache q).isSome := by
  induction msgs generalizing m with
  | nil =>
      rcases h with h | h
      · simp at h
      · exact h
  | cons msg rest ih =>
      rw [show msg = (msg.1, msg.2) from rfl, applyCompletions_cons]
      apply ih
      rcases h with h | h
      · rw [List.map_cons, List.mem_cons] at h
        rcases h with h | h
        · right
          rw [handleCacheUpdate_cache, getKV_set, if_pos h]
          rfl
        · left
          exact h
      · right
        rw [handleCacheUpdate_cache, getKV_set]
        split
        · rfl
        · exact h

/-- While the pending flag is set and some batch key of the current
configuration is uncached and not among the delivered completions, the flag
stays set through any sequence of completions. -/
theorem pending_persists (info : ModelInfoT) (d0 : DataType) (hd0 : d0 ∈ dataTypes) :
    ∀ (msgs : List (CacheKey × ℚ)) (m : TuiModel),
      m.modelInfo = some info → m.cacheOperationPending = true →
      m.cache.GetKVCache (batchKey info.ModelID m.users m.contextLen d0) = none →
      batchKey info.ModelID m.users m.contextLen d0 ∉ msgs.map Prod.fst →
      (applyCompletions m msgs).cacheOperationPending = true := by
  intro msgs
  induction msgs with
  | nil =>
      intro m hm hp _ _
      simpa [applyCompletions_nil] using hp
  | cons x rest ih =>
      intro m hm hp hmiss hnot
      have hne : batchKey info.ModelID m.users m.contextLen d0 ≠ x.1 := by
        intro he
        exact hnot (by rw [List.map_cons, List.mem_cons]; exact Or.inl he)
      have hsetmiss : (m.cache.SetKVCache x.1 x.2).GetKVCache
          (batchKey info.ModelID m.users m.contextLen d0) = none := by
        rw [getKV_set, if_neg hne, hmiss]
      have hp' : (handleCacheUpdate m x.1 x.2).cacheOperationPending = true := by
        rw [handleCacheUpdate_pending_recount m x.1 x.2 info hm hp]
        have hmem : d0 ∈ dataTypes.filter (fun d =>
            ((m.cache.SetKVCache x.1 x.2).GetKVCache
              (batchKey info.ModelID m.users m.contextLen d)).isNone) := by
          rw [List.mem_filter]
          exact ⟨hd0, by rw [hsetmiss]; rfl⟩
        have hpos := List.length_pos.mpr (List.ne_nil_of_mem hmem)
        simpa using hpos
      rw [show x = (x.1, x.2) from rfl, applyCompletions_cons]
      apply ih
      · rw [handleCacheUpdate_modelInfo, hm]
      · exact hp'
      · rw [handleCacheUpdate_users, handleCacheUpdate_contextLen,
          handleCacheUpdate_cache]
        exact hsetmiss
      · rw [handleCacheUpdate_users, handleCacheUpdate_contextLen]
        intro hmem2
        exact hnot (by rw [List.map_cons, List.mem_cons]; exact Or.inr hmem2)

/-- C5 as amended: applying completion messages covering all N batch keys
of the current configuration — in any order — always clears the pending
flag; applying a set of completions that omits a batch key clears nothing
as long as that key is also absent from the Result Cache, so completing
only N-1 keys of a fresh (uncached) configuration leaves the batch
pending. (As stated, the claim's N-1 half fails when the omitted key is
already cached: see the counterexample.) -/
theorem C5_batch_convergence :
    (∀ (m : TuiModel) (info : ModelInfoT) (msgs : List (CacheKey × ℚ)),
        m.modelInfo = some info → msgs ≠ [] →
        (∀ d ∈ dataTypes,
          batchKey info.ModelID m.users m.contextLen d ∈ msgs.map Prod.fst) →
        (applyCompletions m msgs).cacheOperationPending = false) ∧
    (∀ (m : TuiModel) (info : ModelInfoT) (d0 : DataType) (msgs : List (CacheKey × ℚ)),
        m.modelInfo = some info → m.cacheOperationPending = true → d0 ∈ dataTypes →
        m.cache.GetKVCache (batchKey info.ModelID m.users m.contextLen d0) = none →
        batchKey info.ModelID m.users m.contextLen d0 ∉ msgs.map Prod.fst →
        (applyCompletions m msgs).cacheOperationPending = true) := by
  constructor
  · intro m info msgs hm hne hall
    rcases msgs.eq_nil_or_concat' with rfl | ⟨xs, x, rfl⟩
    · exact absurd rfl hne
    rw [applyCompletions_append, show x = (x.1, x.2) from rfl, applyCompletions_cons,
      applyCompletions_nil]
    by_cases hp : (applyCompletions m xs).cacheOperationPending = true
    · have hmmid : (applyCompletions m xs).modelInfo = some info := by
        rw [applyCompletions_modelInfo, hm]
      rw [handleCacheUpdate_pending_recount _ x.1 x.2 info hmmid hp]
      have hfilter : (dataTypes.filter (fun d =>
          (((applyCompletions m xs).cache.SetKVCache x.1 x.2).GetKVCache
            (batchKey info.ModelID (applyCompletions m xs).users
              (applyCompletions m xs).contextLen d)).isNone)) = [] := by
        rw [List.filter_eq_nil_iff]
        intro d hd
        have hsome : (((applyCompletions m (xs ++ [x])).cache).GetKVCache
            (batchKey info.ModelID m.users m.contextLen d)).isSome :=
          applyCompletions_cache_isSome m _ _ (Or.inl (hall d hd))
        rw [applyCompletions_append, show x = (x.1, x.2) from rfl, applyCompletions_cons,
          applyCompletions_nil, handleCacheUpdate_cache] at hsome
        rw [applyCompletions_users, applyCompletions_contextLen]
        obtain ⟨w, hw⟩ := Option.isSome_iff_exists.mp hsome
        simp [hw]
      simp [hfilter]
    · exact handleCacheUpdate_pending_false _ x.1 x.2 (Bool.not_eq_true _ ▸ Bool.eq_false_iff.mpr hp)
  · intro m info d0 msgs hm hp hd0 hmiss hnot
    exact pending_persists info d0 hd0 msgs m hm hp hmiss hnot

/-- A state that dispatches a fresh batch (via `handleModelInfo`) for a
configuration whose int4 key is already in the Result Cache. -/
def c5State : TuiModel :=
  (handleModelInfo
    { modelInfo := none, users := 1, contextLen := 2048,
      cache := emptyCache.SetKVCache (batchKey "m" 1 2048 Int4) 1,
      cacheOperationPending := false, loading := true }
    { ModelID := "m", ParametersB := 3 }).fst

/-- C5 counterexample: a batch of N = 3 data types is dispatched
(`c5State.cacheOperationPending = true`), yet applying only N-1 = 2
completion messages (float16 and int8) already clears the pending flag,
because the omitted int4 key was cached by an earlier visit — the claim
says N-1 completions always leave the batch pending. -/
theorem C5_counterexample :
    c5State.cacheOperationPending = true ∧
    (applyCompletions c5State
      [(batchKey "m" 1 2048 Float16, 1), (batchKey "m" 1 2048 Int8, 1)]).cacheOperationPending
      = false := by
  constructor
  · rfl
  · rfl

/-- C5 witness: both halves of the amended claim at concrete inputs — all
3 completions clear the flag; with an empty cache, 2 of 3 leave it set. -/
theorem C5_witness :
    (applyCompletions c5State
      [(batchKey "m" 1 2048 Int8, 1), (batchKey "m" 1 2048 Float16, 1),
       (batchKey "m" 1 2048 Int4, 1)]).cacheOperationPending = false ∧
    (applyCompletions
      { modelInfo := some { ModelID := "m", ParametersB := 3 }, users := 1,
        contextLen := 2048, cache := emptyCache, cacheOperationPending := true,
        loading := false }
      [(batchKey "m" 1 2048 Float16, 1), (batchKey "m" 1 2048 Int8, 1)]).cacheOperationPending
      = true := by
  constructor
  · exact C5_batch_convergence.1 c5State { ModelID := "m", ParametersB := 3 } _
      rfl (by simp) (by decide)
  · exact C5_batch_convergence.2 _ { ModelID := "m", ParametersB := 3 } Int4 _
      rfl rfl (by decide) rfl (by decide)

/-- C6 counterexample: with a selected model and no batch pending, the `+`
(user count) parameter-change event dispatches a full batch of keys but
leaves the pending flag false — the orchestrator is not moved to the
Awaiting state as the claim requires. -/
theorem C6_counterexample :
    (handlePlusKey
      { modelInfo := some { ModelID := "m", ParametersB := 3 }, users := 1,
        contextLen := 4096, cache := emptyCache, cacheOperationPending := false,
        loading := false }).fst.cacheOperationPending = false ∧
    (handlePlusKey
      { modelInfo := some { ModelID := "m", ParametersB := 3 }, users := 1,
        contextLen := 4096, cache := emptyCache, cacheOperationPending := false,
        loading := false }).snd =
      [batchKey "m" 2 4096 Float16, batchKey "m" 2 4096 Int8, batchKey "m" 2 4096 Int4] := by
  constructor
  · rfl
  · rfl

/-- C6 as amended: every parameter-change event with a selected model
builds one CalculationKey per supported data type for the (updated)
current configuration and dispatches all of them; model selection
additionally sets the batch-pending flag, but the user-count and
context-length events leave the pending flag unchanged (they do not move
the orchestrator to Awaiting). -/
theorem C6_batch_dispatch (m : TuiModel) (info : ModelInfoT)
    (hm : m.modelInfo = some info) :
    (handlePlusKey m).snd =
      dataTypes.map (batchKey info.ModelID (getNextUserCount m.users) m.contextLen) ∧
    (handlePlusKey m).fst.cacheOperationPending = m.cacheOperationPending ∧
    (handleMinusKey m).snd =
      dataTypes.map (batchKey info.ModelID (getPrevUserCount m.users) m.contextLen) ∧
    (handleMinusKey m).fst.cacheOperationPending = m.cacheOperationPending ∧
    (handleContextKey m).snd =
      dataTypes.map (batchKey info.ModelID m.users (getNextContextLength m.contextLen)) ∧
    (handleContextKey m).fst.cacheOperationPending = m.cacheOperationPending ∧
    (handleModelInfo m info).snd =
      dataTypes.map (batchKey info.ModelID m.users m.contextLen) ∧
    (handleModelInfo m info).fst.cacheOperationPending = true := by
  refine ⟨?_, ?_, ?_, ?_, ?_, ?_, ?_, ?_⟩ <;>
    simp [handlePlusKey, handleMinusKey, handleContextKey, handleModelInfo,
      triggerCacheUpdate, isModelSelected, hm]

/-- C6 witness: the amended claim at a concrete state. -/
theorem C6_witness :
    (handlePlusKey
      { modelInfo := some { ModelID := "m", ParametersB := 3 }, users := 1,
        contextLen := 4096, cache := emptyCache, cacheOperationPending := false,
        loading := false }).snd =
      dataTypes.map (batchKey "m" (getNextUserCount 1) 4096) ∧
    (handlePlusKey
      { modelInfo := some { ModelID := "m", ParametersB := 3 }, users := 1,
        contextLen := 4096, cache := emptyCache, cacheOperationPending := false,
        loading := false }).fst.cacheOperationPending = false ∧
    (handleModelInfo
      { modelInfo := some { ModelID := "m", ParametersB := 3 }, users := 1,
        contextLen := 4096, cache := emptyCache, cacheOperationPending := false,
        loading := false } { ModelID := "m", ParametersB := 3 }).fst.cacheOperationPending
      = true := by
  have h := C6_batch_dispatch
    { modelInfo := some { ModelID := "m", ParametersB := 3 }, users := 1,
      contextLen := 4096, cache := emptyCache, cacheOperationPending := false,
      loading := false } { ModelID := "m", ParametersB := 3 } rfl
  exact ⟨h.1, h.2.1, h.2.2.2.2.2.2.2⟩

/-- C7: a completion message always writes its own key's value into the
Result Cache; while the batch is pending it cannot clear the pending flag
as long as some current-configuration key is still missing afterwards; and
a stale key that is not one of the current batch's keys leaves every
current key's cached status unchanged. -/
theorem C7_stale_completion_immunity (m : TuiModel) (info : ModelInfoT)
    (k : CacheKey) (v : ℚ) (hm : m.modelInfo = some info) :
    (handleCacheUpdate m k v).cache.GetKVCache k = some v ∧
    (m.cacheOperationPending = true →
      (∃ d ∈ dataTypes, ((m.cache.SetKVCache k v).GetKVCache
          (batchKey info.ModelID m.users m.contextLen d)) = none) →
      (handleCacheUpdate m k v).cacheOperationPending = true) ∧
    (k ∉ dataTypes.map (batchKey info.ModelID m.users m.contextLen) →
      ∀ d ∈ dataTypes,
        (handleCacheUpdate m k v).cache.GetKVCache
            (batchKey info.ModelID m.users m.contextLen d) =
          m.cache.GetKVCache (batchKey info.ModelID m.users m.contextLen d)) := by
  refine ⟨?_, ?_, ?_⟩
  · rw [handleCacheUpdate_cache, getKV_set, if_pos rfl]
  · intro hp hmiss
    obtain ⟨d0, hd0, hnone⟩ := hmiss
    rw [handleCacheUpdate_pending_recount m k v info hm hp]
    have hmem : d0 ∈ dataTypes.filter (fun d =>
        ((m.cache.SetKVCache k v).GetKVCache
          (batchKey info.ModelID m.users m.contextLen d)).isNone) := by
      rw [List.mem_filter]
      exact ⟨hd0, by rw [hnone]; rfl⟩
    have hpos := List.length_pos.mpr (List.ne_nil_of_mem hmem)
    simpa using hpos
  · intro hk d hd
    have hne : batchKey info.ModelID m.users m.contextLen d ≠ k := by
      intro he
      exact hk (he ▸ List.mem_map_of_mem (batchKey info.ModelID m.users m.contextLen) hd)
    rw [handleCacheUpdate_cache, getKV_set, if_neg hne]

/-- C7 witness: a stale completion from a superseded batch (context 2048)
lands in the cache but leaves the current batch (context 4096) pending. -/
theorem C7_witness :
    ((handleCacheUpdate
      { modelInfo := some { ModelID := "m", ParametersB := 3 }, users := 1,
        contextLen := 4096, cache := emptyCache, cacheOperationPending := true,
        loading := false } (batchKey "m" 1 2048 Float16) 1).cache.GetKVCache
        (batchKey "m" 1 2048 Float16) = some 1) ∧
    (handleCacheUpdate
      { modelInfo := some { ModelID := "m", ParametersB := 3 }, users := 1,
        contextLen := 4096, cache := emptyCache, cacheOperationPending := true,
        loading := false } (batchKey "m" 1 2048 Float16) 1).cacheOperationPending = true := by
  have h := C7_stale_completion_immunity
    { modelInfo := some { ModelID := "m", ParametersB := 3 }, users := 1,
      contextLen := 4096, cache := emptyCache, cacheOperationPending := true,
      loading := false } { ModelID := "m", ParametersB := 3 }
    (batchKey "m" 1 2048 Float16) 1 rfl
  exact ⟨h.1, h.2.1 rfl ⟨Float16, by decide, rfl⟩⟩

/-! ## Claims C8 and C9 -/

/-- C8 counterexample: a value cached under the alias key `q4` is not found
under the canonical key `int4` — the two keys do not collide, contradicting
the claim that cache keys built from an alias and from its canonical form
map to the same cached value. -/
theorem C8_counterexample :
    (emptyCache.SetKVCache
        { ModelID := "m", Users := 1, ContextLen := 4096, DataType := Q4 }
        (1/2)).GetKVCache
      { ModelID := "m", Users := 1, ContextLen := 4096, DataType := Int4 } = none := rfl

/-- C8 as amended: every alias normalizes to its canonical data type and
shares its byte width, and byte-width lookups are invariant under
normalization; cache keys collide only when the alias is normalized before
the key is built — a key built from the raw alias differs from the
canonical key, because `CacheKey` embeds the raw data-type string. -/
theorem C8_normalization_closure :
    NormalizeDataType Q4 = Int4 ∧ NormalizeDataType Q8 = Int8 ∧
    NormalizeDataType F16 = Float16 ∧
    BytesPerType Q4 = BytesPerType Int4 ∧ BytesPerType Q8 = BytesPerType Int8 ∧
    BytesPerType F16 = BytesPerType Float16 ∧
    (∀ d : DataType, BytesPerType d = BytesPerType (NormalizeDataType d)) ∧
    (∀ (mID : String) (u c : ℤ),
      ({ ModelID := mID, Users := u, ContextLen := c,
         DataType := NormalizeDataType Q4 } : CacheKey) =
        { ModelID := mID, Users := u, ContextLen := c, DataType := Int4 }) ∧
    (∀ (mID : String) (u c : ℤ),
      ({ ModelID := mID, Users := u, ContextLen := c, DataType := Q4 } : CacheKey) ≠
        { ModelID := mID, Users := u, ContextLen := c, DataType := Int4 }) := by
  refine ⟨rfl, rfl, rfl, rfl, rfl, rfl, ?_, fun _ _ _ => rfl, fun _ _ _ => ?_⟩
  · intro d
    by_cases h4 : d = Q4
    · subst h4; rfl
    by_cases h8 : d = Q8
    · subst h8; rfl
    by_cases hf : d = F16
    · subst hf; rfl
    rw [NormalizeDataType, if_neg h4, if_neg h8, if_neg hf]
  · intro h
    have : Q4 = Int4 := congrArg CacheKey.DataType h
    exact absurd this (by decide)

/-- C8 witness: the amended claim at concrete inputs. -/
theorem C8_witness :
    NormalizeDataType Q4 = Int4 ∧
    BytesPerType Q4 = BytesPerType (NormalizeDataType Q4) ∧
    (({ ModelID := "m", Users := 1, ContextLen := 4096, DataType := Q4 } : CacheKey) ≠
      { ModelID := "m", Users := 1, ContextLen := 4096, DataType := Int4 }) :=
  ⟨C8_normalization_closure.1,
   C8_normalization_closure.2.2.2.2.2.2.1 Q4,
   C8_normalization_closure.2.2.2.2.2.2.2.2 "m" 1 4096⟩

/-- C9 counterexample: the unsupported data type `bf16` does not fail in
the estimation path — `EstimateKVCache` silently treats its byte width as
the map's zero value, so `resolve` returns 0.0 and caches it under the key
instead of surfacing `UnsupportedDataType`. -/
theorem C9_counterexample :
    EstimateKVCache 3 1 4096 "bf16" = 0 ∧
    GetOrCalculateKVCache (fun _ => none) emptyCache
        { ModelID := "m", Users := 1, ContextLen := 4096, DataType := "bf16" } 3 false =
      .ok 0 (emptyCache.SetKVCache
        { ModelID := "m", Users := 1, ContextLen := 4096, DataType := "bf16" } 0) 1 ∧
    (emptyCache.SetKVCache
        { ModelID := "m", Users := 1, ContextLen := 4096, DataType := "bf16" }
        0).GetKVCache
      { ModelID := "m", Users := 1, ContextLen := 4096, DataType := "bf16" } = some 0 := by
  have hb : BytesPerType "bf16" = none := rfl
  have hE : EstimateKVCache 3 1 4096 "bf16" = 0 := by
    norm_num [EstimateKVCache, hb, bytes_float16, round, goTrunc]
  refine ⟨hE, ?_, rfl⟩
  have hpath : GetOrCalculateKVCache (fun _ => none) emptyCache
      { ModelID := "m", Users := 1, ContextLen := 4096, DataType := "bf16" } 3 false =
      .ok (EstimateKVCache 3 1 4096 "bf16")
        (emptyCache.SetKVCache
          { ModelID := "m", Users := 1, ContextLen := 4096, DataType := "bf16" }
          (EstimateKVCache 3 1 4096 "bf16")) 1 := rfl
  rw [hpath, hE]

/-- C9 as amended: unsupported data types are rejected where the code
validates — `ValidateDataType` is false (the CLI checks it and reports the
error before any calculation) and `CalculateKVCache` returns
`UnsupportedDataType` — but the estimation path absorbs the failed
byte-width lookup as width 0 and computes 0.0 instead of surfacing the
error. -/
theorem C9_unsupported_type (d : DataType) (hd : BytesPerType d = none) :
    ValidateDataType d = false ∧
    (∀ params : KVCacheParams, params.DataType = d →
      ∀ config : ModelConfig, params.Config = some config →
        CalculateKVCache params = .err (.unsupportedDataType d)) ∧
    (∀ (paramsB : ℚ) (users ctx : ℤ), EstimateKVCache paramsB users ctx d = 0) := by
  refine ⟨?_, ?_, ?_⟩
  · rw [ValidateDataType, hd]
    rfl
  · intro params hpd config hpc
    rw [CalculateKVCache, hpc]
    rw [hpd, hd]
  · intro paramsB users ctx
    simp only [EstimateKVCache, hd, Option.getD_none, bytes_float16, Option.getD_some,
      zero_div, mul_zero, zero_mul]
    norm_num [round, goTrunc]

/-- C9 witness: the amended claim at the concrete unsupported type `bf16`. -/
theorem C9_witness :
    ValidateDataType "bf16" = false ∧ EstimateKVCache 3 1 4096 "bf16" = 0 :=
  ⟨(C9_unsupported_type "bf16" rfl).1, (C9_unsupported_type "bf16" rfl).2.2 3 1 4096⟩

/-! ## Claim C10: parameter domains -/

theorem getNextUserCount_mem (current : ℤ) : getNextUserCount current ∈ userCounts := by
  simp only [getNextUserCount, userCounts, nextInList, List.headD]
  split_ifs <;> decide

theorem getNextContextLength_mem (current : ℤ) :
    getNextContextLength current ∈ contextLengths := by
  simp only [getNextContextLength, contextLengths, nextInList, List.headD]
  split_ifs <;> decide

theorem getPrevUserCount_mem (current : ℤ) : getPrevUserCount current ∈ userCounts := by
  have h1 : userCounts.reverse = [32, 16, 8, 4, 2, 1] := rfl
  have h2 : userCounts.getLastD 0 = 32 := rfl
  rw [getPrevUserCount, h1, h2]
  simp only [prevInList, List.headD]
  split_ifs <;> decide

theorem mem_userCounts_one_le (x : ℤ) (hx : x ∈ userCounts) : 1 ≤ x := by
  simp only [userCounts, List.mem_cons, List.not_mem_nil, or_false] at hx
  rcases hx with rfl | rfl | rfl | rfl | rfl | rfl <;> decide

theorem mem_contextLengths_one_le (x : ℤ) (hx : x ∈ contextLengths) : 1 ≤ x := by
  simp only [contextLengths, List.mem_cons, List.not_mem_nil, or_false] at hx
  rcases hx with rfl | rfl | rfl | rfl | rfl <;> decide

/-- In every reachable state the user count and context length are members
of the predefined option lists. -/
theorem reachable_invariant (m : TuiModel) (h : Reachable m) :
    m.users ∈ userCounts ∧ m.contextLen ∈ contextLengths := by
  induction h with
  | init => exact ⟨by decide, by decide⟩
  | step ev hr ih =>
      rcases ev with _ | _ | _ | info | ⟨key, memory⟩ | _ | _ | _
      · simp only [update, handlePlusKey]
        split
        · exact ⟨getNextUserCount_mem _, ih.2⟩
        · exact ih
      · simp only [update, handleMinusKey]
        split
        · exact ⟨getPrevUserCount_mem _, ih.2⟩
        · exact ih
      · simp only [update, handleContextKey]
        split
        · exact ⟨ih.1, getNextContextLength_mem _⟩
        · exact ih
      · exact ih
      · exact ⟨by rw [show (update _ (.cacheUpdateMsg key memory)).fst =
            handleCacheUpdate _ key memory from rfl, handleCacheUpdate_users]; exact ih.1,
          by rw [show (update _ (.cacheUpdateMsg key memory)).fst =
            handleCacheUpdate _ key memory from rfl, handleCacheUpdate_contextLen]; exact ih.2⟩
      · exact ih
      · exact ih
      · exact ih

/-- Every key dispatched from a state whose parameters are in the
predefined lists has `Users ≥ 1` and `ContextLen ≥ 1`. -/
theorem dispatched_key_bounds (m : TuiModel)
    (hu : m.users ∈ userCounts) (hc : m.contextLen ∈ contextLengths) (ev : Ev) :
    ∀ k ∈ (update m ev).snd, 1 ≤ k.Users ∧ 1 ≤ k.ContextLen := by
  intro k hk
  rcases hmi : m.modelInfo with _ | info2
  all_goals rcases ev with _ | _ | _ | info | ⟨key, memory⟩ | _ | _ | _ <;>
    simp only [update, handlePlusKey, handleMinusKey, handleContextKey, handleModelInfo,
      triggerCacheUpdate, isModelSelected, hmi, Option.isSome_none, Option.isSome_some,
      Bool.false_eq_true, if_false, if_true, List.mem_map] at hk
  -- no model selected: only `handleModelInfo` dispatches
  · exact absurd hk (List.not_mem_nil k)
  · exact absurd hk (List.not_mem_nil k)
  · exact absurd hk (List.not_mem_nil k)
  · obtain ⟨d, _, rfl⟩ := hk
    exact ⟨mem_userCounts_one_le _ hu, mem_contextLengths_one_le _ hc⟩
  · exact absurd hk (List.not_mem_nil k)
  · exact absurd hk (List.not_mem_nil k)
  · exact absurd hk (List.not_mem_nil k)
  · exact absurd hk (List.not_mem_nil k)
  -- model selected
  · obtain ⟨d, _, rfl⟩ := hk
    exact ⟨mem_userCounts_one_le _ (getNextUserCount_mem _),
      mem_contextLengths_one_le _ hc⟩
  · obtain ⟨d, _, rfl⟩ := hk
    exact ⟨mem_userCounts_one_le _ (getPrevUserCount_mem _),
      mem_contextLengths_one_le _ hc⟩
  · obtain ⟨d, _, rfl⟩ := hk
    exact ⟨mem_userCounts_one_le _ hu,
      mem_contextLengths_one_le _ (getNextContextLength_mem _)⟩
  · obtain ⟨d, _, rfl⟩ := hk
    exact ⟨mem_userCounts_one_le _ hu, mem_contextLengths_one_le _ hc⟩
  · exact absurd hk (List.not_mem_nil k)
  · exact absurd hk (List.not_mem_nil k)
  · exact absurd hk (List.not_mem_nil k)
  · exact absurd hk (List.not_mem_nil k)

/-- C10: in every reachable TUI state the user count is one of
{1,2,4,8,16,32} and the context length one of
{2048,4096,8192,16384,32768}; the initial state is users = 1,
contextLen = 4096; the +, - and c adjustment operations always return
members of the respective lists; and every key the orchestrator dispatches
satisfies `Users ≥ 1` and `ContextLen ≥ 1`. -/
theorem C10_parameter_domains (m : TuiModel) (h : Reachable m) :
    m.users ∈ userCounts ∧ m.contextLen ∈ contextLengths ∧
    InitialModel.users = 1 ∧ InitialModel.contextLen = 4096 ∧
    (∀ u : ℤ, getNextUserCount u ∈ userCounts ∧ getPrevUserCount u ∈ userCounts) ∧
    (∀ x : ℤ, getNextContextLength x ∈ contextLengths) ∧
    (∀ ev : Ev, ∀ k ∈ (update m ev).snd, 1 ≤ k.Users ∧ 1 ≤ k.ContextLen) := by
  obtain ⟨hu, hc⟩ := reachable_invariant m h
  exact ⟨hu, hc, rfl, rfl,
    fun u => ⟨getNextUserCount_mem u, getPrevUserCount_mem u⟩,
    fun x => getNextContextLength_mem x,
    fun ev => dispatched_key_bounds m hu hc ev⟩

/-- C10 witness: the initial state, reachable by construction. -/
theorem C10_witness :
    InitialModel.users ∈ userCounts ∧ InitialModel.contextLen ∈ contextLengths ∧
    InitialModel.users = 1 ∧ InitialModel.contextLen = 4096 :=
  ⟨(C10_parameter_domains InitialModel Reachable.init).1,
   (C10_parameter_domains InitialModel Reachable.init).2.1,
   (C10_parameter_domains InitialModel Reachable.init).2.2.1,
   (C10_parameter_domains InitialModel Reachable.init).2.2.2.1⟩

end HuggyFit
